import Mathlib

/-!
Shallow embedding of the SHRS capstone market-analysis pipeline
(`create_market_analysis.py`, which emits the R scripts
`00_market_config.R` … `05_market_risk_index.R`).

Numeric (double) arithmetic of the R scripts is modelled over `ℚ`;
R `NA` values are modelled with `Option`; `stop(...)` is modelled with
`Except`/structured abort values.  Category labels are Lean `String`s.
-/

namespace MarketAnalysis

/-! Configuration (`00_market_config.R`). -/

/-- Risk-weight configuration, `MARKET_CONFIG$risk_weights`. -/
structure RiskWeights where
  labor_demand : ℚ
  wage_level : ℚ
  peer_saturation : ℚ
  credential_pressure : ℚ
deriving Repr, DecidableEq

/-- Default weights, `list(labor_demand = 0.35, wage_level = 0.25,
peer_saturation = 0.20, credential_pressure = 0.20)`. -/
def defaultRiskWeights : RiskWeights :=
  { labor_demand := 35/100
    wage_level := 25/100
    peer_saturation := 20/100
    credential_pressure := 20/100 }

/-- Embeds `sum(unlist(MARKET_CONFIG$risk_weights))`. -/
def riskWeightsSum (w : RiskWeights) : ℚ :=
  w.labor_demand + w.wage_level + w.peer_saturation + w.credential_pressure

/-- Embeds the config-load check
`if (abs(sum(unlist(MARKET_CONFIG$risk_weights)) - 1.0) > 0.001) stop(...)`:
`true` means the load aborts. -/
def riskWeightsCheckFails (w : RiskWeights) : Bool :=
  |riskWeightsSum w - 1| > 1/1000

/-- Embeds `get_data_root()`: the environment variable `SHRS_DATA_ROOT`
(empty string when unset, per `Sys.getenv(..., unset = "")`), a directory
existence oracle, whether `scripts/config/data_paths.R` exists, and the
`DATA_ROOT` value it defines (if any). `Except.error` models `stop(...)`. -/
def get_data_root (envRoot : String) (dirExists : String → Bool)
    (configFileExists : Bool) (dataRootVar : Option String) :
    Except String String :=
  if envRoot ≠ "" then
    if dirExists envRoot then .ok envRoot
    else .error ("SHRS_DATA_ROOT environment variable set but directory does not exist: "
      ++ envRoot)
  else if configFileExists then
    match dataRootVar with
    | some r =>
      if dirExists r then .ok r
      else .error ("DATA_ROOT defined in scripts/config/data_paths.R but directory does not exist: "
        ++ r)
    | none => .error "Data root not configured. Please either: 1. Set environment variable SHRS_DATA_ROOT 2. Create scripts/config/data_paths.R with DATA_ROOT"
  else .error "Data root not configured. Please either: 1. Set environment variable SHRS_DATA_ROOT 2. Create scripts/config/data_paths.R with DATA_ROOT"

/-! Cache/refresh gate (`should_rebuild` in `00_market_config.R`).
The cache record is modelled as `Option (String → Option String)`
(`none` = no cache file; the function maps an input path to its recorded
mtime string, `none` when the record holds no entry for that path).
The filesystem is `currentMtime : String → Option String` (`none` = the
file does not exist). -/

/-- Embeds the `for (f in input_files)` loop body of `should_rebuild`:
returns `true` at the first input that is missing, unrecorded, or whose
recorded mtime differs from the current one. -/
def check_inputs (cached currentMtime : String → Option String) :
    List String → Bool
  | [] => false
  | f :: rest =>
    match currentMtime f with
    | none => true
    | some cur =>
      match cached f with
      | none => true
      | some m => if cur ≠ m then true else check_inputs cached currentMtime rest

/-- Embeds `should_rebuild(script_name, input_files)`. -/
def should_rebuild (forceRebuild : Bool)
    (cacheRecord : Option (String → Option String))
    (currentMtime : String → Option String)
    (input_files : List String) : Bool :=
  if forceRebuild then true
  else
    match cacheRecord with
    | none => true
    | some cached => check_inputs cached currentMtime input_files

/-! Shared list helpers mirroring the R vector functions used by the
scripts: `max`, `mean`, `median`, `percent_rank`. -/

/-- Embeds R `max(xs)` on a numeric vector (pipeline use is on nonempty
columns; `[]` is mapped to `0`). -/
def rmax : List ℚ → ℚ
  | [] => 0
  | x :: xs => max x (rmax xs)

/-- Embeds R `mean(xs)` (`sum/length`; `[]` gives `0/0 = 0` in `ℚ`). -/
def rmean (xs : List ℚ) : ℚ := xs.sum / (xs.length : ℚ)

/-- Embeds R `median(xs)`: sort ascending, take the middle element for odd
length, the average of the two middle elements for even length. -/
def rmedian (xs : List ℚ) : ℚ :=
  if (List.insertionSort (· ≤ ·) xs).length = 0 then 0
  else if (List.insertionSort (· ≤ ·) xs).length % 2 = 1 then
    (List.insertionSort (· ≤ ·) xs).getD ((List.insertionSort (· ≤ ·) xs).length / 2) 0
  else
    ((List.insertionSort (· ≤ ·) xs).getD
        ((List.insertionSort (· ≤ ·) xs).length / 2 - 1) 0 +
      (List.insertionSort (· ≤ ·) xs).getD
        ((List.insertionSort (· ≤ ·) xs).length / 2) 0) / 2

/-- Embeds dplyr `percent_rank(xs)` evaluated at a value `v` of the vector:
`(min_rank(v) - 1) / (n - 1)`, i.e. the count of strictly smaller entries
divided by `length - 1`. -/
def percent_rank (xs : List ℚ) (v : ℚ) : ℚ :=
  (xs.countP (fun y => decide (y < v)) : ℚ) / ((xs.length : ℚ) - 1)

/-! Labor market stage (`01_labor_market_trends.R`). -/

/-- Embeds `wage_index = median_wage_annual / grand_median_wage` where
`grand_median_wage = median(labor_data$median_wage_annual, na.rm = TRUE)`. -/
def wage_index (wages : List ℚ) (median_wage_annual : ℚ) : ℚ :=
  median_wage_annual / rmedian wages

/-- Embeds the `growth_category` `case_when` of
`compute_labor_market_summary` (`NA` ↦ `Unknown`). -/
def growth_category (change_percent : Option ℚ) : String :=
  match change_percent with
  | none => "Unknown"
  | some p =>
    if p ≥ 15 then "High Growth"
    else if p ≥ 8 then "Moderate Growth"
    else if p ≥ 0 then "Slow Growth"
    else "Decline"

/-! Credential pressure stage (`02_credential_pressure.R`). -/

/-- Embeds the `credential_risk_score` `case_when` on
`(licensure_required, exam_trend)`. -/
def credential_risk_score (licensure_required exam_trend : String) : ℚ :=
  if licensure_required = "No" ∧ exam_trend = "Unknown" then 2/10
  else if licensure_required = "Yes" ∧ exam_trend = "Stable" then 3/10
  else if licensure_required = "Yes" ∧ exam_trend = "Up" then 5/10
  else if licensure_required = "Yes" ∧ exam_trend = "Down" then 6/10
  else if exam_trend = "Unknown" then 4/10
  else 3/10

/-- Embeds the `credential_risk_category` `case_when`. -/
def credential_risk_category (s : ℚ) : String :=
  if s ≤ 25/100 then "Low"
  else if s ≤ 45/100 then "Moderate"
  else "High"

/-- Embeds `allowed_values <- c("Up", "Stable", "Down", "Unknown")` of
`validate_exam_trends`. -/
def allowed_exam_trends : List String := ["Up", "Stable", "Down", "Unknown"]

/-! Peer program supply stage (`03_peer_program_supply.R`). -/

/-- Embeds the `saturation_index` `case_when` on `saturation_percentile`. -/
def saturation_index (saturation_percentile : ℚ) : String :=
  if saturation_percentile ≤ 33/100 then "Low"
  else if saturation_percentile ≤ 67/100 then "Medium"
  else "High"

/-! Wage vs cost stage (`04_wage_vs_cost_context.R`). -/

/-- Embeds `tuition_index = total_program_cost / mean(total_program_cost,
na.rm = TRUE)`. -/
def tuition_index (costs : List ℚ) (total_program_cost : ℚ) : ℚ :=
  total_program_cost / rmean costs

/-- Embeds `wage_to_cost_ratio = median_wage_annual / total_program_cost`. -/
def wage_to_cost_ratio (median_wage_annual total_program_cost : ℚ) : ℚ :=
  median_wage_annual / total_program_cost

/-- Embeds the `context_category` `case_when` on `wage_to_cost_ratio`. -/
def context_category (ratio : ℚ) : String :=
  if ratio ≥ 12/10 then "Favorable"
  else if ratio ≥ 9/10 then "Moderate"
  else "Challenging"

/-! Market risk index stage (`05_market_risk_index.R`). -/

/-- Embeds the `labor_demand_risk` `case_when` on `projected_growth_pct`
(`NA` ↦ `0.5`). -/
def labor_demand_risk (projected_growth_pct : Option ℚ) : ℚ :=
  match projected_growth_pct with
  | none => 5/10
  | some p =>
    if p ≥ 15 then 1/10
    else if p ≥ 8 then 3/10
    else if p ≥ 0 then 6/10
    else 9/10

/-- Embeds `wage_level_risk = 1 - pmin(wage_index / max(wage_index, na.rm
= TRUE), 1.0)`, where `wage_indices` is the whole `wage_index` column. -/
def wage_level_risk (wage_indices : List ℚ) (wi : ℚ) : ℚ :=
  1 - min (wi / rmax wage_indices) 1

/-- Embeds `peer_saturation_risk = mean(saturation_percentile, na.rm =
TRUE)` over a program's regional rows. -/
def peer_saturation_risk (percentiles : List ℚ) : ℚ :=
  rmean percentiles

/-- Embeds the `market_risk_index` weighted sum of the four sub-scores. -/
def market_risk_index (w : RiskWeights)
    (labor_demand_r wage_level_r peer_saturation_r credential_pressure_r : ℚ) : ℚ :=
  labor_demand_r * w.labor_demand + wage_level_r * w.wage_level +
    peer_saturation_r * w.peer_saturation + credential_pressure_r * w.credential_pressure

/-- Embeds the `risk_category` `case_when` on `market_risk_index`. -/
def risk_category (idx : ℚ) : String :=
  if idx ≤ 35/100 then "Low Risk"
  else if idx ≤ 55/100 then "Moderate Risk"
  else "High Risk"

/-! Stage control flow.  A stage run is modelled by what it does: skip on a
valid cache; abort after writing a template CSV (carrying the missing input
path, the template path, and the template column schema — the data
interpolated into the `stop(sprintf(...))` message and `write.csv` call);
abort on a missing upstream stage output; abort on missing required columns
(`validate_required_columns`, carrying the dataframe name and the missing
columns of the `stop` message); abort on a categorical field outside its
enumeration (`validate_exam_trends`); or produce the primary output table. -/

/-- Outcome of running one analysis stage. -/
inductive StageStep where
  | cacheSkip : StageStep
  | abortTemplate (missingPath templatePath : String)
      (templateCols : List String) : StageStep
  | abortUpstream (missingPath : String) : StageStep
  | abortColumns (dfName : String) (missingCols : List String) : StageStep
  | abortValues (field : String) : StageStep
  | output (primaryTable : String) : StageStep
deriving Repr, DecidableEq

/-- Embeds `setdiff(required_cols, names(df))` of `validate_required_columns`:
the required columns absent from the dataframe. -/
def missing_cols (required actual : List String) : List String :=
  required.filter fun c => !actual.contains c

/-- Embeds `OEWS_FILE <- file.path(MARKET_CONFIG$market_data_dir, "bls_oews.csv")`. -/
def oews_file (dataRoot : String) : String := dataRoot ++ "/market/bls_oews.csv"

/-- Embeds `PROJ_FILE`. -/
def proj_file (dataRoot : String) : String := dataRoot ++ "/market/bls_projections.csv"

/-- Embeds `CREDENTIAL_FILE`. -/
def credential_file (dataRoot : String) : String :=
  dataRoot ++ "/market/credential_pressure.csv"

/-- Template path written when the OEWS input is missing. -/
def oews_template_path : String := "output/tables/bls_oews_TEMPLATE.csv"

/-- Columns of `template_oews` (the `~`-headers of its `tribble`). -/
def oews_template_cols : List String :=
  ["soc_code", "occupation_title", "employment", "median_wage_annual", "data_year"]

/-- Columns demanded by `validate_required_columns(oews_df, ...)`. -/
def oews_required_cols : List String :=
  ["soc_code", "occupation_title", "employment", "median_wage_annual"]

/-- Template path written when the projections input is missing. -/
def proj_template_path : String := "output/tables/bls_projections_TEMPLATE.csv"

/-- Columns of `template_proj`. -/
def proj_template_cols : List String :=
  ["soc_code", "occupation_title", "base_year_employment", "projected_year_employment",
   "change_numeric", "change_percent", "base_year", "projected_year"]

/-- Columns demanded by `validate_required_columns(proj_df, ...)`. -/
def proj_required_cols : List String := ["soc_code", "occupation_title", "change_percent"]

/-- Template path written when the credential input is missing. -/
def credential_template_path : String := "output/tables/credential_pressure_TEMPLATE.csv"

/-- Columns of `template_credential`. -/
def credential_template_cols : List String :=
  ["program", "licensure_required", "exam_trend", "pass_rate_recent",
   "scope_of_practice_notes"]

/-- Columns demanded by `validate_required_columns(credential_df, ...)`. -/
def credential_required_cols : List String :=
  ["program", "licensure_required", "exam_trend", "scope_of_practice_notes"]

/-- Embeds `IPEDS_FILE`. -/
def ipeds_file (dataRoot : String) : String :=
  dataRoot ++ "/market/ipeds_program_counts.csv"

/-- Template path written when the IPEDS input is missing. -/
def ipeds_template_path : String := "output/tables/ipeds_program_counts_TEMPLATE.csv"

/-- Columns of `template_ipeds`. -/
def ipeds_template_cols : List String :=
  ["region", "cip_code", "program_type", "num_programs", "total_completions", "data_year"]

/-- Columns demanded by `validate_required_columns(ipeds_df, ...)`. -/
def ipeds_required_cols : List String :=
  ["region", "program_type", "num_programs", "total_completions"]

/-- Embeds `LABOR_SUMMARY_FILE`, the upstream output consumed by stages 04
and 05. -/
def labor_summary_file : String := "output/tables/market_labor_summary.csv"

/-- Embeds `TUITION_FILE` (under the internal data directory). -/
def tuition_file (dataRoot : String) : String :=
  dataRoot ++ "/internal/tuition_program_level.csv"

/-- Template path written when the tuition input is missing. -/
def tuition_template_path : String := "output/tables/tuition_program_level_TEMPLATE.csv"

/-- Columns of `template_tuition`. -/
def tuition_template_cols : List String :=
  ["program", "program_length_years", "annual_tuition", "total_program_cost",
   "academic_year"]

/-- Columns demanded by `validate_required_columns(tuition_df, ...)`. -/
def tuition_required_cols : List String := ["program", "total_program_cost"]

/-- Control flow of `01_labor_market_trends.R`: cache check, the two
`if (!file.exists(...))` template fallbacks, the two
`validate_required_columns` checks on the dataframes read (their column
name lists are `oewsCols`/`projCols`), then the computation that writes
`market_labor_summary`. -/
def labor_stage (dataRoot : String) (rebuild oewsExists projExists : Bool)
    (oewsCols projCols : List String) : StageStep :=
  if !rebuild then .cacheSkip
  else if !oewsExists then
    .abortTemplate (oews_file dataRoot) oews_template_path oews_template_cols
  else if !projExists then
    .abortTemplate (proj_file dataRoot) proj_template_path proj_template_cols
  else if missing_cols oews_required_cols oewsCols ≠ [] then
    .abortColumns "BLS OEWS data" (missing_cols oews_required_cols oewsCols)
  else if missing_cols proj_required_cols projCols ≠ [] then
    .abortColumns "BLS Projections data" (missing_cols proj_required_cols projCols)
  else .output "market_labor_summary"

/-- Control flow of `02_credential_pressure.R`: cache check, template
fallback, `validate_required_columns`, then `validate_exam_trends` over the
`exam_trend` column values, then the computation that writes
`credential_pressure_summary`. -/
def credential_stage (dataRoot : String) (rebuild credExists : Bool)
    (credCols examTrends : List String) : StageStep :=
  if !rebuild then .cacheSkip
  else if !credExists then
    .abortTemplate (credential_file dataRoot) credential_template_path
      credential_template_cols
  else if missing_cols credential_required_cols credCols ≠ [] then
    .abortColumns "Credential pressure data" (missing_cols credential_required_cols credCols)
  else if examTrends.any (fun t => !allowed_exam_trends.contains t) then
    .abortValues "exam_trend"
  else .output "credential_pressure_summary"

/-- Control flow of `03_peer_program_supply.R`: cache check, template
fallback, `validate_required_columns`, then the computation that writes
`peer_program_supply`. -/
def peer_stage (dataRoot : String) (rebuild ipedsExists : Bool)
    (ipedsCols : List String) : StageStep :=
  if !rebuild then .cacheSkip
  else if !ipedsExists then
    .abortTemplate (ipeds_file dataRoot) ipeds_template_path ipeds_template_cols
  else if missing_cols ipeds_required_cols ipedsCols ≠ [] then
    .abortColumns "IPEDS program counts data" (missing_cols ipeds_required_cols ipedsCols)
  else .output "peer_program_supply"

/-- Control flow of `04_wage_vs_cost_context.R`: cache check, the
`stop` on a missing upstream labor summary (no template for an internal
input), the tuition template fallback, `validate_required_columns` on the
tuition dataframe, then the computation that writes `wage_vs_cost_context`. -/
def wage_cost_stage (dataRoot : String) (rebuild laborExists tuitionExists : Bool)
    (tuitionCols : List String) : StageStep :=
  if !rebuild then .cacheSkip
  else if !laborExists then .abortUpstream labor_summary_file
  else if !tuitionExists then
    .abortTemplate (tuition_file dataRoot) tuition_template_path tuition_template_cols
  else if missing_cols tuition_required_cols tuitionCols ≠ [] then
    .abortColumns "Tuition data" (missing_cols tuition_required_cols tuitionCols)
  else .output "wage_vs_cost_context"

/-! Helper lemmas. -/

/-- Bucket characterization of `risk_category`. -/
lemma risk_category_iff (idx : ℚ) :
    (risk_category idx = "Low Risk" ↔ idx ≤ 35/100) ∧
    (risk_category idx = "Moderate Risk" ↔ 35/100 < idx ∧ idx ≤ 55/100) ∧
    (risk_category idx = "High Risk" ↔ 55/100 < idx) := by
  unfold risk_category
  split_ifs with h1 h2 <;> simp_all <;> linarith

/-- Bucket characterization of `credential_risk_category`. -/
lemma credential_risk_category_iff (s : ℚ) :
    (credential_risk_category s = "Low" ↔ s ≤ 25/100) ∧
    (credential_risk_category s = "Moderate" ↔ 25/100 < s ∧ s ≤ 45/100) ∧
    (credential_risk_category s = "High" ↔ 45/100 < s) := by
  unfold credential_risk_category
  split_ifs with h1 h2 <;> simp_all <;> linarith

/-- Every outcome of the `credential_risk_score` lookup is one of the five
table values. -/
lemma credential_risk_score_cases (lic trend : String) :
    credential_risk_score lic trend = 2/10 ∨ credential_risk_score lic trend = 3/10 ∨
    credential_risk_score lic trend = 4/10 ∨ credential_risk_score lic trend = 5/10 ∨
    credential_risk_score lic trend = 6/10 := by
  unfold credential_risk_score
  split_ifs <;> norm_num

/-- The loop of `should_rebuild` returns `true` exactly when some input is
missing, unrecorded, or stale. -/
lemma check_inputs_iff (cached currentMtime : String → Option String)
    (inputs : List String) :
    check_inputs cached currentMtime inputs = true ↔
      ∃ f ∈ inputs, currentMtime f = none ∨ cached f = none ∨
        ∃ cur m, currentMtime f = some cur ∧ cached f = some m ∧ cur ≠ m := by
  induction inputs with
  | nil => simp [check_inputs]
  | cons f rest ih =>
    simp only [check_inputs]
    cases hfs : currentMtime f with
    | none => simp [hfs]
    | some cur =>
      cases hc : cached f with
      | none => simp [hfs, hc]
      | some m =>
        by_cases hne : cur = m
        · simp [hfs, hc, hne, ih]
        · simp [hfs, hc, hne]

/-- An in-range `getD` access returns a member of the list. -/
lemma getD_mem_of_lt : ∀ (l : List ℚ) (i : ℕ) (d : ℚ), i < l.length → l.getD i d ∈ l
  | [], i, _, h => absurd h (by simp)
  | x :: xs, 0, d, _ => by simp
  | x :: xs, i + 1, d, h => by
    rw [List.getD_cons_succ]
    exact List.mem_cons_of_mem x (getD_mem_of_lt xs i d (by simpa using h))

/-- The maximum of a list of nonnegative rationals is nonnegative. -/
lemma rmax_nonneg (xs : List ℚ) (h : ∀ x ∈ xs, 0 ≤ x) : 0 ≤ rmax xs := by
  induction xs with
  | nil => simp [rmax]
  | cons x rest _ =>
    have hx := h x (List.mem_cons_self x rest)
    simp only [rmax]
    exact le_max_of_le_left hx

/-- The R median of a nonempty list of positive rationals is positive. -/
lemma rmedian_pos (xs : List ℚ) (hne : xs ≠ []) (h : ∀ x ∈ xs, 0 < x) :
    0 < rmedian xs := by
  have hs : ∀ y ∈ List.insertionSort (· ≤ ·) xs, 0 < y := fun y hy =>
    h y ((List.mem_insertionSort _).mp hy)
  have hlen : (List.insertionSort (· ≤ ·) xs).length = xs.length :=
    List.length_insertionSort _ xs
  have hpos : 0 < (List.insertionSort (· ≤ ·) xs).length := by
    rw [hlen]
    exact List.length_pos.mpr hne
  unfold rmedian
  split_ifs with h0 hodd
  · omega
  · exact hs _ (getD_mem_of_lt _ _ _ (Nat.div_lt_self hpos (by norm_num)))
  · have h1 := hs _ (getD_mem_of_lt (List.insertionSort (· ≤ ·) xs)
      ((List.insertionSort (· ≤ ·) xs).length / 2 - 1) 0
      (by omega))
    have h2 := hs _ (getD_mem_of_lt (List.insertionSort (· ≤ ·) xs)
      ((List.insertionSort (· ≤ ·) xs).length / 2) 0
      (Nat.div_lt_self hpos (by norm_num)))
    linarith

/-- A member of the list is not counted among the strictly smaller entries,
so the strictly-smaller count stays below the length. -/
lemma countP_lt_succ_le (xs : List ℚ) (v : ℚ) (hv : v ∈ xs) :
    xs.countP (fun y => decide (y < v)) + 1 ≤ xs.length := by
  induction xs with
  | nil => cases hv
  | cons x rest ih =>
    rw [List.countP_cons, List.length_cons]
    rcases List.mem_cons.mp hv with rfl | hmem
    · have hle := List.countP_le_length (p := fun y => decide (y < v)) (l := rest)
      have hz : (if (decide (v < v)) = true then 1 else 0) = 0 := by simp
      rw [hz]
      omega
    · have h1 := ih hmem
      by_cases hx : x < v
      · have hz : (if (decide (x < v)) = true then 1 else 0) = 1 := by simp [hx]
        rw [hz]
        omega
      · have hz : (if (decide (x < v)) = true then 1 else 0) = 0 := by simp [hx]
        rw [hz]
        omega

/-- A percentile rank of a member of the vector lies in `[0, 1]`. -/
lemma percent_rank_mem_bounds (xs : List ℚ) (v : ℚ) (hv : v ∈ xs) :
    0 ≤ percent_rank xs v ∧ percent_rank xs v ≤ 1 := by
  have hlen : 1 ≤ xs.length := List.length_pos.mpr (List.ne_nil_of_mem hv)
  have hcount := countP_lt_succ_le xs v hv
  unfold percent_rank
  rcases Nat.eq_or_lt_of_le hlen with h1 | h2
  · rw [← h1]
    norm_num
  · have hd : (0:ℚ) < (xs.length : ℚ) - 1 := by
      have h2q : (2:ℚ) ≤ (xs.length : ℚ) := by exact_mod_cast h2
      linarith
    constructor
    · exact div_nonneg (by positivity) (le_of_lt hd)
    · rw [div_le_one hd]
      have hq : (xs.countP (fun y => decide (y < v)) : ℚ) + 1 ≤ (xs.length : ℚ) := by
        exact_mod_cast hcount
      linarith

/-- The R mean of a nonempty list of values in `[0, 1]` lies in `[0, 1]`. -/
lemma rmean_bounds (vs : List ℚ) (hne : vs ≠ []) (h : ∀ v ∈ vs, 0 ≤ v ∧ v ≤ 1) :
    0 ≤ rmean vs ∧ rmean vs ≤ 1 := by
  have hlen : (0:ℚ) < (vs.length : ℚ) := by
    have := List.length_pos.mpr hne
    exact_mod_cast this
  have hsum0 : 0 ≤ vs.sum := List.sum_nonneg fun x hx => (h x hx).1
  have hsum1 : vs.sum ≤ (vs.length : ℚ) := by
    have := List.sum_le_card_nsmul vs 1 fun x hx => (h x hx).2
    simpa using this
  unfold rmean
  exact ⟨div_nonneg hsum0 (le_of_lt hlen), by rw [div_le_one hlen]; exact hsum1⟩

/-- Strictly-smaller counts plus occurrences of an upper bound exhaust a
list bounded by that value. -/
lemma countP_lt_add_count (M : ℚ) (xs : List ℚ) (hub : ∀ y ∈ xs, y ≤ M) :
    xs.countP (fun y => decide (y < M)) + xs.count M = xs.length := by
  induction xs with
  | nil => simp
  | cons x rest ih =>
    have hx := hub x (List.mem_cons_self x rest)
    have ih2 := ih fun y hy => hub y (List.mem_cons_of_mem x hy)
    rw [List.countP_cons, List.length_cons, List.count_cons]
    rcases lt_or_eq_of_le hx with hlt | heq
    · have h1 : (if (decide (x < M)) = true then 1 else 0) = 1 := by simp [hlt]
      have h2 : (if x == M then 1 else 0) = 0 := by
        simp [ne_of_lt hlt]
      rw [h1, h2]
      omega
    · subst heq
      have h1 : (if (decide (x < x)) = true then 1 else 0) = 0 := by simp
      have h2 : (if x == x then 1 else 0) = 1 := by simp
      rw [h1, h2]
      omega

/-- Percentile ranks are monotone in the ranked value. -/
lemma percent_rank_mono (xs : List ℚ) (v1 v2 : ℚ) (h12 : v2 < v1) :
    percent_rank xs v2 ≤ percent_rank xs v1 := by
  have hc : xs.countP (fun y => decide (y < v2)) ≤ xs.countP (fun y => decide (y < v1)) :=
    List.countP_mono_left fun x _ hx => by
      simp only [decide_eq_true_eq] at hx ⊢
      linarith
  unfold percent_rank
  rcases lt_trichotomy ((xs.length : ℚ) - 1) 0 with hd | hd | hd
  · have h0 : xs.length = 0 := by
      by_contra hne
      have h1 : 1 ≤ xs.length := Nat.one_le_iff_ne_zero.mpr hne
      have : (1:ℚ) ≤ (xs.length : ℚ) := by exact_mod_cast h1
      linarith
    have he : xs = [] := List.length_eq_zero.mp h0
    subst he
    simp
  · rw [hd, div_zero, div_zero]
  · exact (div_le_div_right hd).mpr (by exact_mod_cast hc)

/-- The minimum of a group receives percentile rank `0`. -/
lemma percent_rank_min_zero (xs : List ℚ) (m : ℚ) (hlb : ∀ y ∈ xs, m ≤ y) :
    percent_rank xs m = 0 := by
  have hc : xs.countP (fun y => decide (y < m)) = 0 := by
    rw [List.countP_eq_zero]
    intro a ha
    simp [not_lt.mpr (hlb a ha)]
  unfold percent_rank
  rw [hc]
  simp

/-- A unique maximum of a group of at least two rows receives percentile
rank `1`. -/
lemma percent_rank_max_unique (xs : List ℚ) (M : ℚ) (hlen : 2 ≤ xs.length)
    (hub : ∀ y ∈ xs, y ≤ M) (huniq : xs.count M = 1) :
    percent_rank xs M = 1 := by
  have hc := countP_lt_add_count M xs hub
  have hcount : xs.countP (fun y => decide (y < M)) = xs.length - 1 := by omega
  have h1 : 1 ≤ xs.length := by omega
  have hd : (0:ℚ) < (xs.length : ℚ) - 1 := by
    have h2q : (2:ℚ) ≤ (xs.length : ℚ) := by exact_mod_cast hlen
    linarith
  unfold percent_rank
  rw [hcount]
  rw [show ((xs.length - 1 : ℕ) : ℚ) = (xs.length : ℚ) - 1 by
    rw [Nat.cast_sub h1, Nat.cast_one]]
  exact div_self (ne_of_gt hd)

/-! Claim theorems. -/

/-- C1: for every program row with all four risk sub-scores present, the
composite `market_risk_index` under the default weights is the weighted sum
`labor*0.35 + wage*0.25 + peer*0.20 + credential*0.20`, `risk_category`
buckets it as Low Risk when `≤ 0.35`, Moderate Risk when `≤ 0.55`, High Risk
otherwise; and sub-scores `(0.1, 0.2, 0.5, 0.3)` give exactly `0.245`,
categorized "Low Risk". -/
theorem market_risk_index_spec :
    (∀ ldr wlr psr cpr : ℚ,
      market_risk_index defaultRiskWeights ldr wlr psr cpr =
        ldr * (35/100) + wlr * (25/100) + psr * (20/100) + cpr * (20/100)) ∧
    (∀ idx : ℚ,
      (risk_category idx = "Low Risk" ↔ idx ≤ 35/100) ∧
      (risk_category idx = "Moderate Risk" ↔ 35/100 < idx ∧ idx ≤ 55/100) ∧
      (risk_category idx = "High Risk" ↔ 55/100 < idx)) ∧
    market_risk_index defaultRiskWeights (1/10) (2/10) (5/10) (3/10) = 245/1000 ∧
    risk_category
      (market_risk_index defaultRiskWeights (1/10) (2/10) (5/10) (3/10)) = "Low Risk" := by
  refine ⟨fun ldr wlr psr cpr => by norm_num [market_risk_index, defaultRiskWeights],
    risk_category_iff,
    by norm_num [market_risk_index, defaultRiskWeights],
    by norm_num [market_risk_index, defaultRiskWeights, risk_category]⟩

/-- C4: for every credential row, the `(licensure_required, exam_trend)`
lookup yields a score in `{0.2, 0.3, 0.4, 0.5, 0.6}`; the category is Low
when the score is `≤ 0.25`, Moderate when `≤ 0.45`, High otherwise; and
`("Yes", "Down")` yields score `0.6` with category "High". -/
theorem credential_risk_lookup_spec :
    (∀ lic trend : String,
      credential_risk_score lic trend = 2/10 ∨ credential_risk_score lic trend = 3/10 ∨
      credential_risk_score lic trend = 4/10 ∨ credential_risk_score lic trend = 5/10 ∨
      credential_risk_score lic trend = 6/10) ∧
    (∀ s : ℚ,
      (credential_risk_category s = "Low" ↔ s ≤ 25/100) ∧
      (credential_risk_category s = "Moderate" ↔ 25/100 < s ∧ s ≤ 45/100) ∧
      (credential_risk_category s = "High" ↔ 45/100 < s)) ∧
    credential_risk_score "Yes" "Down" = 6/10 ∧
    credential_risk_category (credential_risk_score "Yes" "Down") = "High" := by
  refine ⟨fun lic trend => ?_, credential_risk_category_iff, by rfl, ?_⟩
  · unfold credential_risk_score
    split_ifs <;> norm_num
  · have h : credential_risk_score "Yes" "Down" = 6/10 := rfl
    rw [h]
    norm_num [credential_risk_category]

/-- C5: the growth bucket of a projected growth value is "Unknown" when the
value is missing, "High Growth" when `≥ 15`, "Moderate Growth" when
`≥ 8` and `< 15`, "Slow Growth" when `≥ 0` and `< 8`, "Decline" when `< 0`;
`19.6 = 98/5` maps to "High Growth", `10.4 = 52/5` to "Moderate Growth",
and `-2.0` to "Decline". -/
theorem growth_category_spec :
    growth_category none = "Unknown" ∧
    (∀ p : ℚ, 15 ≤ p → growth_category (some p) = "High Growth") ∧
    (∀ p : ℚ, 8 ≤ p → p < 15 → growth_category (some p) = "Moderate Growth") ∧
    (∀ p : ℚ, 0 ≤ p → p < 8 → growth_category (some p) = "Slow Growth") ∧
    (∀ p : ℚ, p < 0 → growth_category (some p) = "Decline") ∧
    growth_category (some (98/5)) = "High Growth" ∧
    growth_category (some (52/5)) = "Moderate Growth" ∧
    growth_category (some (-2)) = "Decline" := by
  refine ⟨rfl, fun p h => ?_, fun p h1 h2 => ?_, fun p h1 h2 => ?_, fun p h => ?_,
    by norm_num [growth_category], by norm_num [growth_category],
    by norm_num [growth_category]⟩ <;>
  · simp only [growth_category]
    split_ifs <;> first | rfl | linarith

/-- Witness for C5: the bucket implications at concrete growth values. -/
theorem growth_category_check :
    growth_category (some 20) = "High Growth" ∧
    growth_category (some 10) = "Moderate Growth" ∧
    growth_category (some 3) = "Slow Growth" ∧
    growth_category (some (-1)) = "Decline" :=
  ⟨growth_category_spec.2.1 20 (by norm_num),
   growth_category_spec.2.2.1 10 (by norm_num) (by norm_num),
   growth_category_spec.2.2.2.1 3 (by norm_num) (by norm_num),
   growth_category_spec.2.2.2.2.1 (-1) (by norm_num)⟩

/-- C6: the risk-weight validation of the configuration loader aborts
exactly when the weight components sum to a value differing from `1.0` by
more than `0.001`; the default weight configuration passes. -/
theorem risk_weights_validation_spec :
    (∀ w : RiskWeights,
      riskWeightsCheckFails w = true ↔ |riskWeightsSum w - 1| > 1/1000) ∧
    riskWeightsCheckFails defaultRiskWeights = false := by
  constructor
  · intro w
    exact decide_eq_true_iff
  · norm_num [riskWeightsCheckFails, riskWeightsSum, defaultRiskWeights]

/-- C9: data-root resolution succeeds exactly when the environment variable
names an existing directory, or the environment variable is unset and the
override config file defines a `DATA_ROOT` naming an existing directory; a
set environment variable pointing at an existing directory wins outright;
and whenever neither source resolves to an existing directory the loader
returns an error, never a path. -/
theorem get_data_root_spec (envRoot : String) (dirExists : String → Bool)
    (configFileExists : Bool) (dataRootVar : Option String) :
    ((∃ p, get_data_root envRoot dirExists configFileExists dataRootVar = .ok p) ↔
      (envRoot ≠ "" ∧ dirExists envRoot = true) ∨
      (envRoot = "" ∧ configFileExists = true ∧
        ∃ r, dataRootVar = some r ∧ dirExists r = true)) ∧
    (envRoot ≠ "" → dirExists envRoot = true →
      get_data_root envRoot dirExists configFileExists dataRootVar = .ok envRoot) ∧
    (¬((envRoot ≠ "" ∧ dirExists envRoot = true) ∨
        (envRoot = "" ∧ configFileExists = true ∧
          ∃ r, dataRootVar = some r ∧ dirExists r = true)) →
      ∃ msg, get_data_root envRoot dirExists configFileExists dataRootVar = .error msg) := by
  have hiff : (∃ p, get_data_root envRoot dirExists configFileExists dataRootVar = .ok p) ↔
      (envRoot ≠ "" ∧ dirExists envRoot = true) ∨
      (envRoot = "" ∧ configFileExists = true ∧
        ∃ r, dataRootVar = some r ∧ dirExists r = true) := by
    unfold get_data_root
    by_cases he : envRoot = ""
    · simp only [he, ne_eq, not_true_eq_false, if_false]
      cases configFileExists
      · simp
      · rcases dataRootVar with _ | r
        · simp
        · by_cases hr : dirExists r = true <;> simp [hr]
    · by_cases hd : dirExists envRoot = true <;> simp [he, hd]
  refine ⟨hiff, fun hne hd => ?_, fun hn => ?_⟩
  · simp [get_data_root, hne, hd]
  · cases hres : get_data_root envRoot dirExists configFileExists dataRootVar with
    | ok p => exact absurd (hiff.mp ⟨p, hres⟩) hn
    | error msg => exact ⟨msg, rfl⟩

/-- Witness for C9: priority of the environment variable, and the failure
case where neither source resolves, at concrete inputs. -/
theorem get_data_root_check :
    get_data_root "/data" (fun _ => true) false none = .ok "/data" ∧
    (∃ msg, get_data_root "" (fun _ => false) true (some "/x") = .error msg) :=
  ⟨(get_data_root_spec "/data" (fun _ => true) false none).2.1
      (by simp) rfl,
   (get_data_root_spec "" (fun _ => false) true (some "/x")).2.2
      (by simp)⟩

/-- C3: `should_rebuild` returns true exactly when the force-rebuild flag is
set, or no cache record exists for the stage, or some input file is missing,
has no recorded timestamp, or its recorded modification timestamp differs
from the currently observed one. -/
theorem should_rebuild_spec (force : Bool)
    (cache : Option (String → Option String))
    (currentMtime : String → Option String) (inputs : List String) :
    should_rebuild force cache currentMtime inputs = true ↔
      force = true ∨ cache = none ∨
      ∃ cached, cache = some cached ∧ ∃ f ∈ inputs,
        currentMtime f = none ∨ cached f = none ∨
        ∃ cur m, currentMtime f = some cur ∧ cached f = some m ∧ cur ≠ m := by
  cases force with
  | true => simp [should_rebuild]
  | false =>
    cases cache with
    | none => simp [should_rebuild]
    | some cached => simp [should_rebuild, check_inputs_iff]

/-- Witness for C3: concrete rebuild decisions — force set, and an
up-to-date cache. -/
theorem should_rebuild_check :
    should_rebuild true none (fun _ => none) [] = true ∧
    should_rebuild false (some fun _ => some "t") (fun _ => some "t") ["a"] = false := by
  constructor
  · exact (should_rebuild_spec true none (fun _ => none) []).mpr (Or.inl rfl)
  · have h := should_rebuild_spec false (some fun _ => some "t") (fun _ => some "t") ["a"]
    cases hb : should_rebuild false (some fun _ => some "t") (fun _ => some "t") ["a"] with
    | false => rfl
    | true => exact absurd (h.mp hb) (by simp)

/-- C7: for every stage reading an externally supplied input file (the
labor stage's OEWS and projections files, the credential stage's pressure
file, the peer-supply stage's IPEDS file, and the wage-vs-cost stage's
tuition file), if that file is absent the stage aborts carrying the missing
path, a template artifact path under the output tables directory, and the
template column schema covering every column the stage requires — and it
does not produce its primary output table. -/
theorem missing_input_template_spec (dataRoot : String) (projExists : Bool)
    (oewsCols projCols credCols ipedsCols tuitionCols examTrends : List String) :
    labor_stage dataRoot true false projExists oewsCols projCols =
      .abortTemplate (oews_file dataRoot) oews_template_path oews_template_cols ∧
    oews_required_cols ⊆ oews_template_cols ∧
    labor_stage dataRoot true true false oewsCols projCols =
      .abortTemplate (proj_file dataRoot) proj_template_path proj_template_cols ∧
    proj_required_cols ⊆ proj_template_cols ∧
    credential_stage dataRoot true false credCols examTrends =
      .abortTemplate (credential_file dataRoot) credential_template_path
        credential_template_cols ∧
    credential_required_cols ⊆ credential_template_cols ∧
    peer_stage dataRoot true false ipedsCols =
      .abortTemplate (ipeds_file dataRoot) ipeds_template_path ipeds_template_cols ∧
    ipeds_required_cols ⊆ ipeds_template_cols ∧
    wage_cost_stage dataRoot true true false tuitionCols =
      .abortTemplate (tuition_file dataRoot) tuition_template_path
        tuition_template_cols ∧
    tuition_required_cols ⊆ tuition_template_cols ∧
    (∀ t, labor_stage dataRoot true false projExists oewsCols projCols ≠
      StageStep.output t) ∧
    (∀ t, labor_stage dataRoot true true false oewsCols projCols ≠
      StageStep.output t) ∧
    (∀ t, credential_stage dataRoot true false credCols examTrends ≠
      StageStep.output t) ∧
    (∀ t, peer_stage dataRoot true false ipedsCols ≠ StageStep.output t) ∧
    (∀ t, wage_cost_stage dataRoot true true false tuitionCols ≠
      StageStep.output t) := by
  refine ⟨rfl, ?_, rfl, ?_, rfl, ?_, rfl, ?_, rfl, ?_, ?_, ?_, ?_, ?_, ?_⟩
  · intro c hc
    fin_cases hc <;> simp [oews_template_cols]
  · intro c hc
    fin_cases hc <;> simp [proj_template_cols]
  · intro c hc
    fin_cases hc <;> simp [credential_template_cols]
  · intro c hc
    fin_cases hc <;> simp [ipeds_template_cols]
  · intro c hc
    fin_cases hc <;> simp [tuition_template_cols]
  · intro t h
    simp [labor_stage] at h
  · intro t h
    simp [labor_stage] at h
  · intro t h
    simp [credential_stage] at h
  · intro t h
    simp [peer_stage] at h
  · intro t h
    simp [wage_cost_stage] at h

/-- Witness for C7: at a concrete data root, a missing OEWS file, IPEDS
file, and tuition file each abort with their template, and the labor stage
writes no primary table. -/
theorem missing_input_template_check :
    labor_stage "/d" true false true [] [] =
      StageStep.abortTemplate (oews_file "/d") oews_template_path oews_template_cols ∧
    peer_stage "/d" true false [] =
      StageStep.abortTemplate (ipeds_file "/d") ipeds_template_path ipeds_template_cols ∧
    wage_cost_stage "/d" true true false [] =
      StageStep.abortTemplate (tuition_file "/d") tuition_template_path
        tuition_template_cols ∧
    labor_stage "/d" true false true [] [] ≠ StageStep.output "market_labor_summary" :=
  ⟨(missing_input_template_spec "/d" true [] [] [] [] [] []).1,
   (missing_input_template_spec "/d" true [] [] [] [] [] []).2.2.2.2.2.2.1,
   (missing_input_template_spec "/d" true [] [] [] [] [] []).2.2.2.2.2.2.2.2.1,
   (missing_input_template_spec "/d" true [] [] [] [] [] []).2.2.2.2.2.2.2.2.2.2.1
     "market_labor_summary"⟩

/-- C10: the credential score lookup is total — any
`(licensure_required, exam_trend)` combination matched by none of the five
explicit branches falls to the catch-all and scores `0.3`; in particular
`("No", "Down")` scores `0.3` (category "Moderate"), and every row with an
allowed exam trend receives one of the five scores and one of the three
categories. -/
theorem credential_score_total_spec :
    (∀ lic trend : String,
      ¬(lic = "No" ∧ trend = "Unknown") → ¬(lic = "Yes" ∧ trend = "Stable") →
      ¬(lic = "Yes" ∧ trend = "Up") → ¬(lic = "Yes" ∧ trend = "Down") →
      trend ≠ "Unknown" → credential_risk_score lic trend = 3/10) ∧
    credential_risk_score "No" "Down" = 3/10 ∧
    credential_risk_category (credential_risk_score "No" "Down") = "Moderate" ∧
    (∀ lic trend : String, trend ∈ allowed_exam_trends →
      (credential_risk_score lic trend = 2/10 ∨ credential_risk_score lic trend = 3/10 ∨
       credential_risk_score lic trend = 4/10 ∨ credential_risk_score lic trend = 5/10 ∨
       credential_risk_score lic trend = 6/10) ∧
      (credential_risk_category (credential_risk_score lic trend) = "Low" ∨
       credential_risk_category (credential_risk_score lic trend) = "Moderate" ∨
       credential_risk_category (credential_risk_score lic trend) = "High")) := by
  refine ⟨fun lic trend h1 h2 h3 h4 h5 => ?_, by rfl, ?_, fun lic trend _ => ⟨credential_risk_score_cases lic trend, ?_⟩⟩
  · unfold credential_risk_score
    split_ifs with g1 g2 g3 g4 g5 <;> first | rfl | tauto
  · have h : credential_risk_score "No" "Down" = 3/10 := rfl
    rw [h]
    norm_num [credential_risk_category]
  · rcases credential_risk_score_cases lic trend with h | h | h | h | h <;>
      rw [h] <;> norm_num [credential_risk_category]

/-- Witness for C10: catch-all instances at concrete inputs. -/
theorem credential_score_total_check :
    credential_risk_score "Maybe" "Down" = 3/10 ∧
    credential_risk_score "No" "Stable" = 3/10 :=
  ⟨credential_score_total_spec.1 "Maybe" "Down" (by simp) (by simp) (by simp) (by simp)
      (by simp),
   credential_score_total_spec.1 "No" "Stable" (by simp) (by simp) (by simp) (by simp)
      (by simp)⟩

/-- C2: for valid inputs, each risk sub-score and the composite index lie in
`[0, 1]`, and the wage and tuition indices are non-negative: the labor risk
bucket always lands in `[0, 1]`; the wage-level risk lies in `[0, 1]`
whenever the wage indices are non-negative; a percentile rank of a member
lies in `[0, 1]`, hence so does a mean of percentiles; the credential score
lies in `[0, 1]`; the default-weight composite of sub-scores in `[0, 1]`
lies in `[0, 1]`; and wage/tuition indices of positive columns are
non-negative. -/
theorem risk_scores_bounded_spec :
    (∀ g : Option ℚ, 0 ≤ labor_demand_risk g ∧ labor_demand_risk g ≤ 1) ∧
    (∀ (wis : List ℚ) (wi : ℚ), wi ∈ wis → (∀ x ∈ wis, 0 ≤ x) →
      0 ≤ wage_level_risk wis wi ∧ wage_level_risk wis wi ≤ 1) ∧
    (∀ (xs : List ℚ) (v : ℚ), v ∈ xs →
      0 ≤ percent_rank xs v ∧ percent_rank xs v ≤ 1) ∧
    (∀ ps : List ℚ, ps ≠ [] → (∀ p ∈ ps, 0 ≤ p ∧ p ≤ 1) →
      0 ≤ peer_saturation_risk ps ∧ peer_saturation_risk ps ≤ 1) ∧
    (∀ lic trend : String,
      0 ≤ credential_risk_score lic trend ∧ credential_risk_score lic trend ≤ 1) ∧
    (∀ a b c d : ℚ, 0 ≤ a → a ≤ 1 → 0 ≤ b → b ≤ 1 → 0 ≤ c → c ≤ 1 → 0 ≤ d → d ≤ 1 →
      0 ≤ market_risk_index defaultRiskWeights a b c d ∧
        market_risk_index defaultRiskWeights a b c d ≤ 1) ∧
    (∀ (wages : List ℚ) (w : ℚ), w ∈ wages → (∀ x ∈ wages, 0 < x) →
      0 ≤ wage_index wages w) ∧
    (∀ (costs : List ℚ) (c : ℚ), c ∈ costs → (∀ x ∈ costs, 0 < x) →
      0 ≤ tuition_index costs c) := by
  refine ⟨?_, ?_, percent_rank_mem_bounds, ?_, ?_, ?_, ?_, ?_⟩
  · intro g
    rcases g with _ | p
    · norm_num [labor_demand_risk]
    · simp only [labor_demand_risk]
      split_ifs <;> norm_num
  · intro wis wi hmem h
    have hr : 0 ≤ wi / rmax wis := div_nonneg (h wi hmem) (rmax_nonneg wis h)
    have hmin1 : min (wi / rmax wis) 1 ≤ 1 := min_le_right _ _
    have hmin0 : 0 ≤ min (wi / rmax wis) 1 := le_min hr (by norm_num)
    unfold wage_level_risk
    constructor <;> linarith
  · intro ps hne h
    exact rmean_bounds ps hne h
  · intro lic trend
    rcases credential_risk_score_cases lic trend with h | h | h | h | h <;>
      rw [h] <;> norm_num
  · intro a b c d ha0 ha1 hb0 hb1 hc0 hc1 hd0 hd1
    unfold market_risk_index defaultRiskWeights
    constructor <;> · simp only []; linarith
  · intro wages w hmem h
    have hm := rmedian_pos wages (List.ne_nil_of_mem hmem) h
    exact div_nonneg (le_of_lt (h w hmem)) (le_of_lt hm)
  · intro costs c hmem h
    have hs : 0 < costs.sum := List.sum_pos costs h (List.ne_nil_of_mem hmem)
    have hl : (0:ℚ) < (costs.length : ℚ) := by
      have := List.length_pos.mpr (List.ne_nil_of_mem hmem)
      exact_mod_cast this
    have hm : 0 < rmean costs := div_pos hs hl
    exact div_nonneg (le_of_lt (h c hmem)) (le_of_lt hm)

/-- Witness for C2: the bound statements instantiated at concrete columns. -/
theorem risk_scores_bounded_check :
    (0 ≤ wage_level_risk [1] 1 ∧ wage_level_risk [1] 1 ≤ 1) ∧
    (0 ≤ percent_rank [1, 2] 2 ∧ percent_rank [1, 2] 2 ≤ 1) ∧
    (0 ≤ peer_saturation_risk [1/2] ∧ peer_saturation_risk [1/2] ≤ 1) ∧
    (0 ≤ market_risk_index defaultRiskWeights (1/10) (2/10) (5/10) (3/10) ∧
      market_risk_index defaultRiskWeights (1/10) (2/10) (5/10) (3/10) ≤ 1) ∧
    0 ≤ wage_index [2, 4] 2 ∧
    0 ≤ tuition_index [2, 4] 2 :=
  ⟨risk_scores_bounded_spec.2.1 [1] 1 (by simp) (by norm_num),
   risk_scores_bounded_spec.2.2.1 [1, 2] 2 (by simp),
   risk_scores_bounded_spec.2.2.2.1 [1/2] (by simp) (by norm_num),
   risk_scores_bounded_spec.2.2.2.2.2.1 (1/10) (2/10) (5/10) (3/10)
     (by norm_num) (by norm_num) (by norm_num) (by norm_num)
     (by norm_num) (by norm_num) (by norm_num) (by norm_num),
   risk_scores_bounded_spec.2.2.2.2.2.2.1 [2, 4] 2 (by simp) (by norm_num),
   risk_scores_bounded_spec.2.2.2.2.2.2.2 [2, 4] 2 (by simp) (by norm_num)⟩

/-- Counterexample for C8: the Mid-Atlantic region group of the template
data joined through the program crosswalk has `num_programs` column
`[45, 12, 45, 38, 52, 78, 78]` — more than one row, yet no row attains
percentile `1`, because the maximum `78` is tied; the percentiles do not
span `[0, 1]`. -/
theorem peer_span_counterexample :
    1 < ([45, 12, 45, 38, 52, 78, 78] : List ℚ).length ∧
    ∀ v ∈ ([45, 12, 45, 38, 52, 78, 78] : List ℚ),
      percent_rank [45, 12, 45, 38, 52, 78, 78] v ≠ 1 := by
  constructor
  · norm_num
  · intro v hv
    fin_cases hv <;> norm_num [percent_rank, List.countP, List.countP.go]

/-- C8 (amended): within a region group, `percent_rank` is monotone in
`num_programs`; the regional minimum always receives percentile `0`; and
the regional maximum receives percentile `1` whenever the group has at
least two rows and the maximum value occurs in exactly one row (with a tie
at the maximum, no row reaches percentile `1`). -/
theorem peer_percentile_amended_spec :
    (∀ (xs : List ℚ) (v1 v2 : ℚ), v1 ∈ xs → v2 ∈ xs → v2 < v1 →
      percent_rank xs v2 ≤ percent_rank xs v1) ∧
    (∀ (xs : List ℚ) (m : ℚ), m ∈ xs → (∀ y ∈ xs, m ≤ y) →
      percent_rank xs m = 0) ∧
    (∀ (xs : List ℚ) (M : ℚ), 2 ≤ xs.length → M ∈ xs → (∀ y ∈ xs, y ≤ M) →
      xs.count M = 1 → percent_rank xs M = 1) :=
  ⟨fun xs v1 v2 _ _ h => percent_rank_mono xs v1 v2 h,
   fun xs m _ h => percent_rank_min_zero xs m h,
   fun xs M h1 _ h3 h4 => percent_rank_max_unique xs M h1 h3 h4⟩

/-- Witness for C8 (amended): the group `[1, 2]` — monotone percentiles,
minimum at `0`, unique maximum at `1`. -/
theorem peer_percentile_amended_check :
    percent_rank [1, 2] 1 ≤ percent_rank [1, 2] 2 ∧
    percent_rank [1, 2] 1 = 0 ∧
    percent_rank [1, 2] 2 = 1 :=
  ⟨peer_percentile_amended_spec.1 [1, 2] 2 1 (by simp) (by simp) (by norm_num),
   peer_percentile_amended_spec.2.1 [1, 2] 1 (by simp) (by norm_num),
   peer_percentile_amended_spec.2.2 [1, 2] 2 (by simp) (by simp)
     (by norm_num) (by simp [List.count_cons])⟩

end MarketAnalysis
